import Mathlib

/-!
Shallow embedding of `src/js/main.js` (Proxy UI Documentation front-end).

The page state manipulated by the script is modelled explicitly: the
`.content-section` elements, the `.nav-item` elements, the `#sidebar`
element (possibly absent), `document.body.style.overflow`, the window
width, the location hash and the history length.  Each handler of the
script becomes a pure function on this state.
-/

namespace ProxyUI

/-- A `.content-section` element: its `id` attribute and whether its class
list holds `active` (the class that makes a section visible). -/
structure ContentSection where
  id : String
  active : Bool
deriving DecidableEq, Repr

/-- A `.nav-item` element: its `onclick` attribute text and whether its
class list holds `active`. -/
structure NavItem where
  onclick : String
  active : Bool
deriving DecidableEq, Repr

/-- The observable page state touched by `main.js`.  `sidebar` is `none`
when `document.getElementById("sidebar")` finds nothing, `some b` when the
element exists with open-state `b`.  `locationHash` holds
`window.location.hash` (leading `#` included, `""` when empty). -/
structure DocState where
  sections : List ContentSection
  navItems : List NavItem
  sidebar : Option Bool
  toggleButtonPresent : Bool
  bodyOverflow : String
  innerWidth : Nat
  locationHash : String
  historyLength : Nat
  replaceStateSupported : Bool
  scrolledToTop : Bool
deriving DecidableEq, Repr

/-- `sections.forEach(s => s.classList.remove("active"))`. -/
def deactivateSections (l : List ContentSection) : List ContentSection :=
  l.map (fun sec => { sec with active := false })

/-- `navItems.forEach(item => item.classList.remove("active"))`. -/
def deactivateNavs (l : List NavItem) : List NavItem :=
  l.map (fun n => { n with active := false })

/-- `document.getElementById(sectionId).classList.add("active")`: the first
element carrying the id gets the class; the rest of the list is untouched. -/
def activateById (sectionId : String) : List ContentSection → List ContentSection
  | [] => []
  | sec :: rest =>
    if sec.id == sectionId then { sec with active := true } :: rest
    else sec :: activateById sectionId rest

/-- `element.classList.add("active")` on the i-th nav item. -/
def activateNavAt : Nat → List NavItem → List NavItem
  | _, [] => []
  | 0, n :: rest => { n with active := true } :: rest
  | i + 1, n :: rest => n :: activateNavAt i rest

/-- `showSection(sectionId, element)` from `main.js`: hide every section,
show the one whose id matches (scrolling to top when it exists), clear all
nav highlighting, highlight `element` when given, close the sidebar when
`window.innerWidth <= 768`, and replace the hash with `#sectionId` when
`history.replaceState` exists.  `element` is the index of the clicked nav
item, `none` when the second argument is absent. -/
def showSection (sectionId : String) (element : Option Nat) (s : DocState) : DocState :=
  { s with
      sections :=
        if s.sections.any (fun sec => sec.id == sectionId) then
          activateById sectionId (deactivateSections s.sections)
        else
          deactivateSections s.sections
      scrolledToTop :=
        if s.sections.any (fun sec => sec.id == sectionId) then true else s.scrolledToTop
      navItems :=
        match element with
        | some i => activateNavAt i (deactivateNavs s.navItems)
        | none => deactivateNavs s.navItems
      sidebar :=
        if s.innerWidth ≤ 768 then s.sidebar.map (fun _ => false) else s.sidebar
      locationHash :=
        if s.replaceStateSupported then "#" ++ sectionId else s.locationHash }

/-- `toggleSidebar()` from `main.js`: flip the `open` class and set
`document.body.style.overflow` to `"hidden"` exactly when the sidebar ends
up open. -/
def toggleSidebar (s : DocState) : DocState :=
  match s.sidebar with
  | none => s
  | some opn =>
    { s with
        sidebar := some (!opn)
        bodyOverflow := if !opn then "hidden" else "" }

/-- `handleResize()` from `main.js`: on a viewport wider than 768, drop the
`open` class (when the sidebar exists) and clear the scroll lock. -/
def handleResize (s : DocState) : DocState :=
  if 768 < s.innerWidth then
    { s with
        sidebar := s.sidebar.map (fun _ => false)
        bodyOverflow := "" }
  else s

/-- Outcome of an event handler that may throw an uncaught exception. -/
inductive ClickOutcome where
  | ok (s : DocState)
  | threw (msg : String)
deriving DecidableEq, Repr

/-- `handleOutsideClick(event)` from `main.js`.  The conjunction is
evaluated left to right exactly as the source writes it, so
`toggleButton.contains(event.target)` is reached — and throws a
`TypeError` when `.menu-toggle` is absent — only after the width check,
the sidebar lookup and `!sidebar.contains(event.target)` all pass. -/
def handleOutsideClick (targetInSidebar targetInToggle : Bool) (s : DocState) :
    ClickOutcome :=
  if s.innerWidth ≤ 768 then
    match s.sidebar with
    | none => .ok s
    | some opn =>
      if targetInSidebar then .ok s
      else if !s.toggleButtonPresent then .threw "TypeError: toggleButton is null"
      else if targetInToggle then .ok s
      else if opn then .ok { s with sidebar := some false, bodyOverflow := "" }
      else .ok s
  else .ok s

/-- `handleKeyboardNavigation(event)` from `main.js`: Escape closes an open
sidebar (clearing the scroll lock); Alt+M toggles the sidebar. -/
def handleKeyboardNavigation (key : String) (altKey : Bool) (s : DocState) : DocState :=
  let s1 :=
    if key == "Escape" then
      match s.sidebar with
      | some true => { s with sidebar := some false, bodyOverflow := "" }
      | _ => s
    else s
  if altKey && key.toLower == "m" then toggleSidebar s1 else s1

/-- Whether `needle` begins `hay`, character for character. -/
def listStartsWith : List Char → List Char → Bool
  | [], _ => true
  | _ :: _, [] => false
  | a :: as, b :: bs => a == b && listStartsWith as bs

/-- Whether `needle` occurs contiguously inside `hay`. -/
def listContainsSub (needle : List Char) : List Char → Bool
  | [] => needle.isEmpty
  | c :: rest => listStartsWith needle (c :: rest) || listContainsSub needle rest

/-- The CSS attribute selector `[onclick*="needle"]`: substring match. -/
def strContainsSub (needle hay : String) : Bool :=
  listContainsSub needle.data hay.data

/-- `document.querySelector("[onclick*=key]")` over the nav items: index of
the first nav item whose `onclick` text holds `key` as a substring. -/
def findNavIdxAux (key : String) : Nat → List NavItem → Option Nat
  | _, [] => none
  | i, n :: rest =>
    if strContainsSub key n.onclick then some i else findNavIdxAux key (i + 1) rest

/-- `handleInitialLoad()` from `main.js`: read the hash past the `#`; when
it is nonempty and some nav item's `onclick` contains it, call
`showSection` with that hash and element; otherwise do nothing. -/
def handleInitialLoad (s : DocState) : DocState :=
  if s.locationHash.drop 1 = "" then s
  else
    match findNavIdxAux (s.locationHash.drop 1) 0 s.navItems with
    | some i => showSection (s.locationHash.drop 1) (some i) s
    | none => s

/-- The copy button as the feedback code touches it: `innerHTML`, the class
list behind `className` / `classList`, and the two inline style properties
the error path writes. -/
structure CopyButton where
  innerHTML : String
  className : List String
  styleColor : String
  styleBorderColor : String
deriving DecidableEq, Repr

/-- `classList.add(c)`: append the token unless already present. -/
def addClass (c : String) (l : List String) : List String :=
  if l.contains c then l else l ++ [c]

/-- What a pending `setTimeout` reversion will write back: the captured
`innerHTML` and `className`, and whether it also clears the two inline
style properties (the error path does, the success path does not). -/
structure FeedbackTimer where
  html : String
  classes : List String
  resetStyles : Bool
deriving DecidableEq, Repr

/-- Firing one pending reversion timer on the button. -/
def applyTimer (tm : FeedbackTimer) (b : CopyButton) : CopyButton :=
  if tm.resetStyles then
    { b with
        innerHTML := tm.html
        className := tm.classes
        styleColor := ""
        styleBorderColor := "" }
  else
    { b with innerHTML := tm.html, className := tm.classes }

/-- The markup `showCopyFeedback` writes into the button. -/
def checkIconHTML : String := "<i class=\"fas fa-check\"></i>"

/-- The markup `showCopyError` writes into the button. -/
def warnIconHTML : String := "<i class=\"fas fa-exclamation-triangle\"></i>"

/-- `showCopyFeedback(button)` from `main.js`: capture `innerHTML` and
`className`, swap in the check icon, add the `copied` and `copying`
classes, and schedule a reversion to the captured snapshot. -/
def showCopyFeedback (b : CopyButton) : CopyButton × FeedbackTimer :=
  ({ b with
       innerHTML := checkIconHTML
       className := addClass "copying" (addClass "copied" b.className) },
   { html := b.innerHTML, classes := b.className, resetStyles := false })

/-- `showCopyError(button)` from `main.js`: capture `innerHTML` and
`className`, swap in the warning icon, set the red inline colors, and
schedule a reversion that restores the snapshot and clears both inline
style properties to the empty string. -/
def showCopyError (b : CopyButton) : CopyButton × FeedbackTimer :=
  ({ b with
       innerHTML := warnIconHTML
       styleColor := "#ff6b6b"
       styleBorderColor := "#ff6b6b" },
   { html := b.innerHTML, classes := b.className, resetStyles := true })

/-- The environment `copyCode` runs in: whether
`button.closest(".code-container")` finds a container, the text content of
`container.querySelector("code")` (`none` when no code element), whether
`navigator.clipboard.writeText` exists, whether that write resolves, and
whether the legacy `execCommand` fallback throws. -/
structure CopyEnv where
  containerFound : Bool
  codeText : Option String
  clipboardApiAvailable : Bool
  clipboardWriteOk : Bool
  fallbackThrows : Bool
deriving DecidableEq, Repr

/-- What one `copyCode` invocation leaves behind. -/
inductive CopyResult where
  | silentAbort (b : CopyButton)
  | showedFeedback (b : CopyButton) (tm : FeedbackTimer)
  | showedError (b : CopyButton) (tm : FeedbackTimer)
deriving DecidableEq, Repr

/-- `copyCode(button)` from `main.js`.  When the container lookup returns
null, `codeContainer.querySelector` throws a `TypeError`; the surrounding
`try` catches it and calls `showCopyError`.  When the container exists but
holds no code element, the `if (!codeBlock)` guard logs and returns with
the button untouched.  Otherwise the write path runs and its outcome picks
between `showCopyFeedback` and `showCopyError`. -/
def copyCode (env : CopyEnv) (b : CopyButton) : CopyResult :=
  if !env.containerFound then
    .showedError (showCopyError b).1 (showCopyError b).2
  else
    match env.codeText with
    | none => .silentAbort b
    | some _ =>
      let ok :=
        if env.clipboardApiAvailable then env.clipboardWriteOk
        else !env.fallbackThrows
      if ok then .showedFeedback (showCopyFeedback b).1 (showCopyFeedback b).2
      else .showedError (showCopyError b).1 (showCopyError b).2

/-- `max` on ℤ, written out so every use computes by `decide`. -/
def zmax (a b : ℤ) : ℤ := if a ≤ b then b else a

/-- `min` on ℤ, written out so every use computes by `decide`. -/
def zmin (a b : ℤ) : ℤ := if a ≤ b then a else b

/-- All scroll-spy geometry is exact: positions are in (logical) pixels
and lengths are carried multiplied by 100 so the percentage band
endpoints of `rootMargin` stay integral.  Top of the root band: the
`rootMargin` top of `-20%` moves it 20% of the viewport height down. -/
def bandTop100 (vh : ℤ) : ℤ := 20 * vh

/-- Bottom of the root band, scaled by 100: the `rootMargin` bottom of
`-70%` moves it 70% of the viewport height up, leaving the band ending at
30% of the viewport height. -/
def bandBottom100 (vh : ℤ) : ℤ := 100 * vh - 70 * vh

/-- Length (scaled by 100) of the overlap between a section spanning
`[secTop, secTop + secHeight]` in viewport coordinates and the root band
shrunk by `rootMargin: "-20% 0px -70% 0px"`. -/
def intersectionLen100 (secTop secHeight vh : ℤ) : ℤ :=
  zmax 0
    (zmin (100 * (secTop + secHeight)) (bandBottom100 vh) -
      zmax (100 * secTop) (bandTop100 vh))

/-- The condition under which `initScrollSpy`'s callback promotes a
section: `entry.isIntersecting && entry.intersectionRatio > 0.5`.  The
ratio test `overlap / secHeight > 1/2` is written multiplied out as
`100 * secHeight < 2 * overlap100`, which is equivalent for positive
`secHeight`. -/
def spyMarksRead (secTop secHeight vh : ℤ) : Bool :=
  decide (0 < intersectionLen100 secTop secHeight vh) &&
  decide (100 * secHeight < 2 * intersectionLen100 secTop secHeight vh)

/-- Modelled from the spec: the policy as the spec words it — a section is
currently read when at least 50% of it is within the middle 10%–80%
vertical band of the viewport.  The ratio test `overlap / secHeight ≥ 1/2`
is written multiplied out, as in `spyMarksRead`.  Kept separate from
`spyMarksRead` (which follows the source) so the two policies can be
compared. -/
def specMarksRead (secTop secHeight vh : ℤ) : Bool :=
  decide (100 * secHeight ≤
    2 * zmax 0
      (zmin (100 * (secTop + secHeight)) (80 * vh) - zmax (100 * secTop) (10 * vh)))

/-- The state update `initScrollSpy`'s callback performs when a section
with id `sectionId` crosses the threshold: find the nav item whose
`onclick` holds the id, clear `active` from every nav item, set it on the
found one, and replace the hash.  Sections are never touched. -/
def scrollSpyUpdate (sectionId : String) (s : DocState) : DocState :=
  match findNavIdxAux sectionId 0 s.navItems with
  | none => s
  | some i =>
    { s with
        navItems := activateNavAt i (deactivateNavs s.navItems)
        locationHash :=
          if s.replaceStateSupported then "#" ++ sectionId else s.locationHash }

/-! Shared fixtures: the three-section page of the spec's scenarios. -/

/-- Demo page: sections intro / api / faq, nav items bound 1:1, sidebar
present and closed, desktop width. -/
def demoState : DocState :=
  { sections := [⟨"intro", true⟩, ⟨"api", false⟩, ⟨"faq", false⟩]
    navItems :=
      [⟨"showSection(intro, this)", true⟩,
       ⟨"showSection(api, this)", false⟩,
       ⟨"showSection(faq, this)", false⟩]
    sidebar := some false
    toggleButtonPresent := true
    bodyOverflow := ""
    innerWidth := 1024
    locationHash := "#intro"
    historyLength := 1
    replaceStateSupported := true
    scrolledToTop := false }

/-- The demo page on a narrow (mobile) viewport. -/
def demoMobile : DocState := { demoState with innerWidth := 500 }

/-- A copy button as authored: copy icon, one class, no inline styles. -/
def demoButton : CopyButton :=
  { innerHTML := "<i class=\"fas fa-copy\"></i>"
    className := ["copy-btn"]
    styleColor := ""
    styleBorderColor := "" }

/-! Helper lemmas about the list operations. -/

theorem deactivateSections_filter (l : List ContentSection) :
    (deactivateSections l).filter (fun sec => sec.active) = [] := by
  induction l with
  | nil => rfl
  | cons x xs ih => simp [deactivateSections, List.filter]

theorem deactivateNavs_filter (l : List NavItem) :
    (deactivateNavs l).filter (fun n => n.active) = [] := by
  induction l with
  | nil => rfl
  | cons x xs ih => simp [deactivateNavs, List.filter]

theorem deactivateNavs_map_active (l : List NavItem) :
    (deactivateNavs l).map NavItem.active = List.replicate l.length false := by
  induction l with
  | nil => rfl
  | cons x xs ih => simp [deactivateNavs, List.replicate] at ih ⊢; exact ih

theorem activateById_filter (S : String) (l : List ContentSection)
    (h : l.any (fun sec => sec.id == S) = true) :
    ((activateById S (deactivateSections l)).filter (fun sec => sec.active)).map
      ContentSection.id = [S] := by
  induction l with
  | nil => simp at h
  | cons x xs ih =>
    by_cases hx : x.id = S
    · simp [deactivateSections, activateById, hx, List.filter,
        deactivateSections_filter]
    · have hx2 : (x.id == S) = false := by simp [hx]
      have h2 : xs.any (fun sec => sec.id == S) = true := by
        simp [List.any_cons, hx2] at h
        simpa using h
      simpa [deactivateSections, activateById, hx2, List.filter] using ih h2

theorem activateNavAt_map_active (l : List NavItem) (i : Nat) (hi : i < l.length) :
    (activateNavAt i (deactivateNavs l)).map NavItem.active
      = List.replicate i false ++ true :: List.replicate (l.length - i - 1) false := by
  induction l generalizing i with
  | nil => simp at hi
  | cons n rest ih =>
    cases i with
    | zero =>
      have hrest := deactivateNavs_map_active rest
      simp [deactivateNavs, List.map_map] at hrest
      simp [deactivateNavs, activateNavAt, List.map_map, hrest]
    | succ k =>
      have hk : k < rest.length := by simpa using hi
      have := ih k hk
      simp [deactivateNavs, activateNavAt] at this ⊢
      simpa [List.replicate] using this

/-! The claims. -/

/-- C1 counterexample: on the demo page, where `intro` is the active
section, `showSection` with the unknown key `missing` is not a no-op: it
removes the `active` class from `intro`, leaving no section visible. -/
theorem C1_counterexample :
    demoState.sections = [⟨"intro", true⟩, ⟨"api", false⟩, ⟨"faq", false⟩] ∧
    (showSection "missing" none demoState).sections
      = [⟨"intro", false⟩, ⟨"api", false⟩, ⟨"faq", false⟩] := by decide

/-- C1 (amended): `showSection` with a key matching no section signals no
error, but it is not a no-op: every section is deactivated (the previously
active section is hidden), every nav item is deactivated, the sidebar is
still closed on a narrow viewport, and the hash is still replaced; only
the scroll position and history length are untouched. -/
theorem C1_unknown_key (s : DocState) (K : String)
    (hK : s.sections.any (fun sec => sec.id == K) = false) :
    ((showSection K none s).sections.filter (fun sec => sec.active) = []) ∧
    ((showSection K none s).navItems.filter (fun n => n.active) = []) ∧
    ((showSection K none s).sidebar
      = if s.innerWidth ≤ 768 then s.sidebar.map (fun _ => false) else s.sidebar) ∧
    ((showSection K none s).locationHash
      = if s.replaceStateSupported then "#" ++ K else s.locationHash) ∧
    ((showSection K none s).scrolledToTop = s.scrolledToTop) ∧
    ((showSection K none s).historyLength = s.historyLength) := by
  unfold showSection
  simp [hK, deactivateSections_filter, deactivateNavs_filter]

/-- C1 witness: the amended statement at the demo page and key `missing`. -/
theorem C1_unknown_key_witness :
    ((showSection "missing" none demoState).sections.filter (fun sec => sec.active) = []) ∧
    ((showSection "missing" none demoState).navItems.filter (fun n => n.active) = []) ∧
    ((showSection "missing" none demoState).sidebar
      = if demoState.innerWidth ≤ 768 then demoState.sidebar.map (fun _ => false)
        else demoState.sidebar) ∧
    ((showSection "missing" none demoState).locationHash
      = if demoState.replaceStateSupported then "#" ++ "missing"
        else demoState.locationHash) ∧
    ((showSection "missing" none demoState).scrolledToTop = demoState.scrolledToTop) ∧
    ((showSection "missing" none demoState).historyLength = demoState.historyLength) :=
  C1_unknown_key demoState "missing" (by decide)

/-- The demo mobile page right after `toggleSidebar` opened the drawer:
sidebar open, background scroll locked. -/
def demoMobileOpen : DocState :=
  { demoMobile with sidebar := some true, bodyOverflow := "hidden" }

/-- C2 (code bug at the failing input): on a narrow viewport the state
with the sidebar open and the scroll locked is reachable by one
`toggleSidebar`; from it, `showSection` closes the sidebar but leaves
`document.body.style.overflow` at `"hidden"`, so the sidebar-open state
and the scroll-lock state disagree. -/
theorem C2_sync_broken :
    toggleSidebar demoMobile = demoMobileOpen ∧
    demoMobileOpen.sidebar = some true ∧
    demoMobileOpen.bodyOverflow = "hidden" ∧
    (showSection "api" (some 1) demoMobileOpen).sidebar = some false ∧
    (showSection "api" (some 1) demoMobileOpen).bodyOverflow = "hidden" := by decide

/-- C6: selecting an existing section S through its nav item leaves
exactly one section active — the one with id S — and exactly one nav item
active — the clicked one. -/
theorem C6_valid_selection (s : DocState) (S : String) (i : Nat)
    (hS : s.sections.any (fun sec => sec.id == S) = true)
    (hi : i < s.navItems.length)
    (_hcorr : strContainsSub S (s.navItems.get ⟨i, hi⟩).onclick = true) :
    (((showSection S (some i) s).sections.filter (fun sec => sec.active)).map
        ContentSection.id = [S]) ∧
    ((showSection S (some i) s).navItems.map NavItem.active
      = List.replicate i false ++ true ::
          List.replicate (s.navItems.length - i - 1) false) := by
  unfold showSection
  refine ⟨?_, ?_⟩
  · simp [hS, activateById_filter S s.sections hS]
  · simp [activateNavAt_map_active s.navItems i hi]

/-- C6 witness: selecting `api` via its nav item on the demo page. -/
theorem C6_valid_selection_witness :
    (((showSection "api" (some 1) demoState).sections.filter (fun sec => sec.active)).map
        ContentSection.id = ["api"]) ∧
    ((showSection "api" (some 1) demoState).navItems.map NavItem.active
      = List.replicate 1 false ++ true ::
          List.replicate (demoState.navItems.length - 1 - 1) false) :=
  C6_valid_selection demoState "api" 1 (by decide) (by decide) (by decide)

/-- C9: a resize with the viewport wider than 768 forces the sidebar
closed, whatever its prior open state, and clears the scroll lock. -/
theorem C9_resize_desktop (s : DocState) (b : Bool)
    (hw : 768 < s.innerWidth) (hb : s.sidebar = some b) :
    (handleResize s).sidebar = some false ∧ (handleResize s).bodyOverflow = "" := by
  unfold handleResize
  rw [if_pos hw]
  simp [hb]

/-- C9 witness: a desktop-width page with the sidebar open and the scroll
locked is forced closed and unlocked. -/
theorem C9_resize_desktop_witness :
    (handleResize { demoState with sidebar := some true, bodyOverflow := "hidden" }).sidebar
      = some false ∧
    (handleResize { demoState with sidebar := some true, bodyOverflow := "hidden" }).bodyOverflow
      = "" :=
  C9_resize_desktop { demoState with sidebar := some true, bodyOverflow := "hidden" } true
    (by decide) (by decide)

/-- C10: whenever `history.replaceState` exists, `showSection` replaces
the hash with `#` followed by the requested key, whether or not a section
with that key exists. -/
theorem C10_hash_set_unconditionally (s : DocState) (k : String) (el : Option Nat)
    (hr : s.replaceStateSupported = true) :
    (showSection k el s).locationHash = "#" ++ k := by
  unfold showSection
  simp [hr]

/-- C10 witness: on the demo page, `nope` names no section, yet the hash
becomes `#nope`. -/
theorem C10_hash_set_witness :
    demoState.sections.any (fun sec => sec.id == "nope") = false ∧
    (showSection "nope" none demoState).locationHash = "#" ++ "nope" :=
  ⟨by decide, C10_hash_set_unconditionally demoState "nope" none rfl⟩

/-- First rapid `copyCode` feedback invocation on the demo button. -/
def c3First : CopyButton × FeedbackTimer := showCopyFeedback demoButton

/-- Second rapid invocation, fired before the first timer ran. -/
def c3Second : CopyButton × FeedbackTimer := showCopyFeedback c3First.1

/-- The button after both 2-second timers fired, in scheduling order. -/
def c3Final : CopyButton := applyTimer c3Second.2 (applyTimer c3First.2 c3Second.1)

/-- C3 (code bug at the failing input): after two rapid feedback
invocations on the demo button, the second timer restores the snapshot it
captured — which is the first invocation's feedback state — so once both
windows elapse the button still shows the check icon and keeps the
`copied` and `copying` classes instead of its original markup. -/
theorem C3_rapid_double_copy :
    c3Final.innerHTML = checkIconHTML ∧
    c3Final.className = ["copy-btn", "copied", "copying"] ∧
    c3Final ≠ demoButton := by decide

/-- The environment in which the button has no enclosing
`.code-container`, so `button.closest` returns null. -/
def c4NoContainer : CopyEnv :=
  { containerFound := false
    codeText := none
    clipboardApiAvailable := true
    clipboardWriteOk := true
    fallbackThrows := false }

/-- C4 counterexample: with no shared container, `copyCode` does not abort
silently — the thrown `TypeError` is caught and the button is put into the
user-visible error feedback state (warning icon, red inline color). -/
theorem C4_counterexample :
    copyCode c4NoContainer demoButton
      = CopyResult.showedError (showCopyError demoButton).1 (showCopyError demoButton).2 ∧
    (showCopyError demoButton).1.styleColor = "#ff6b6b" ∧
    (showCopyError demoButton).1.innerHTML = warnIconHTML := by decide

/-- C4 (amended): the silent paths are narrower than claimed.  A container
that exists but holds no code element is a silent abort; the outside-click
handler is a no-op when the sidebar is absent; but a missing container
surfaces the error feedback state, and a missing toggle control makes the
outside-click handler throw once the earlier conjuncts pass. -/
theorem C4_missing_element_paths (env : CopyEnv) (b : CopyButton) (s : DocState)
    (o : Bool) (hc : env.containerFound = true) (hn : env.codeText = none)
    (hs : s.sidebar = some o) (ht : s.toggleButtonPresent = false)
    (hw : s.innerWidth ≤ 768) :
    copyCode env b = CopyResult.silentAbort b ∧
    (∀ s2 : DocState, s2.sidebar = none → ∀ a c : Bool,
        handleOutsideClick a c s2 = ClickOutcome.ok s2) ∧
    (∀ env2 : CopyEnv, ∀ b2 : CopyButton, env2.containerFound = false →
        copyCode env2 b2
          = CopyResult.showedError (showCopyError b2).1 (showCopyError b2).2) ∧
    handleOutsideClick false false s
      = ClickOutcome.threw "TypeError: toggleButton is null" := by
  refine ⟨?_, ?_, ?_, ?_⟩
  · unfold copyCode
    simp [hc, hn]
  · intro s2 h2 a c
    unfold handleOutsideClick
    by_cases hw2 : s2.innerWidth ≤ 768 <;> simp [hw2, h2]
  · intro env2 b2 h2
    unfold copyCode
    simp [h2]
  · unfold handleOutsideClick
    simp [hw, hs, ht]

/-- The demo mobile page with the `.menu-toggle` control missing. -/
def demoNoToggle : DocState := { demoMobile with toggleButtonPresent := false }

/-- The environment where the container exists but wraps no code element. -/
def c4NoCode : CopyEnv := { c4NoContainer with containerFound := true }

/-- C4 witness: the amended statement at concrete inputs. -/
theorem C4_missing_element_paths_witness :
    copyCode c4NoCode demoButton = CopyResult.silentAbort demoButton ∧
    (∀ s2 : DocState, s2.sidebar = none → ∀ a c : Bool,
        handleOutsideClick a c s2 = ClickOutcome.ok s2) ∧
    (∀ env2 : CopyEnv, ∀ b2 : CopyButton, env2.containerFound = false →
        copyCode env2 b2
          = CopyResult.showedError (showCopyError b2).1 (showCopyError b2).2) ∧
    handleOutsideClick false false demoNoToggle
      = ClickOutcome.threw "TypeError: toggleButton is null" :=
  C4_missing_element_paths c4NoCode demoButton demoNoToggle false
    (by decide) (by decide) (by decide) (by decide) (by decide)

/-- The success feedback look: check icon plus the `copied` class. -/
def inSuccessState (b : CopyButton) : Bool :=
  b.innerHTML == checkIconHTML && b.className.contains "copied"

/-- The error feedback look: warning icon plus the red inline color. -/
def inErrorState (b : CopyButton) : Bool :=
  b.innerHTML == warnIconHTML && b.styleColor == "#ff6b6b"

/-- A copy button that carries a pre-existing inline color. -/
def c8Styled : CopyButton :=
  { innerHTML := "<i class=\"fas fa-copy\"></i>"
    className := ["copy-btn"]
    styleColor := "red"
    styleBorderColor := "" }

/-- C8 counterexample: on a button whose pre-invocation inline color is
`red`, the error feedback's reversion clears the inline color to the empty
string instead of restoring it, so the round trip is not byte-identical. -/
theorem C8_counterexample :
    applyTimer (showCopyError c8Styled).2 (showCopyError c8Styled).1 ≠ c8Styled ∧
    (applyTimer (showCopyError c8Styled).2 (showCopyError c8Styled).1).styleColor = "" ∧
    c8Styled.styleColor = "red" := by decide

/-- C8 (amended): for a single invocation the success reversion is always
byte-identical; the error reversion restores markup and classes but clears
the two inline style properties, so it is byte-identical exactly when they
were empty before the invocation (as they are on a button the page
authored without inline styles); the two feedback states are mutually
exclusive — the success look never satisfies the error look's test and
vice versa. -/
theorem C8_roundtrip (b : CopyButton)
    (hc : b.styleColor = "") (hbc : b.styleBorderColor = "") :
    applyTimer (showCopyFeedback b).2 (showCopyFeedback b).1 = b ∧
    applyTimer (showCopyError b).2 (showCopyError b).1 = b ∧
    (∀ b2 : CopyButton, applyTimer (showCopyFeedback b2).2 (showCopyFeedback b2).1 = b2) ∧
    (∀ b2 : CopyButton,
        applyTimer (showCopyError b2).2 (showCopyError b2).1
          = { b2 with styleColor := "", styleBorderColor := "" }) ∧
    (∀ b2 : CopyButton, inErrorState (showCopyFeedback b2).1 = false) ∧
    (∀ b2 : CopyButton, inSuccessState (showCopyError b2).1 = false) := by
  have hne : (checkIconHTML == warnIconHTML) = false := by decide
  have hne2 : (warnIconHTML == checkIconHTML) = false := by decide
  refine ⟨rfl, ?_, fun b2 => rfl, fun b2 => rfl, ?_, ?_⟩
  · cases b
    simp [applyTimer, showCopyError] at hc hbc ⊢
    exact ⟨hc.symm, hbc.symm⟩
  · intro b2
    simp [inErrorState, showCopyFeedback, hne]
  · intro b2
    simp [inSuccessState, showCopyError, hne2]

/-- C8 witness: the round-trip statement at the demo button, whose inline
styles are empty. -/
theorem C8_roundtrip_witness :
    applyTimer (showCopyFeedback demoButton).2 (showCopyFeedback demoButton).1 = demoButton ∧
    applyTimer (showCopyError demoButton).2 (showCopyError demoButton).1 = demoButton ∧
    (∀ b2 : CopyButton, applyTimer (showCopyFeedback b2).2 (showCopyFeedback b2).1 = b2) ∧
    (∀ b2 : CopyButton,
        applyTimer (showCopyError b2).2 (showCopyError b2).1
          = { b2 with styleColor := "", styleBorderColor := "" }) ∧
    (∀ b2 : CopyButton, inErrorState (showCopyFeedback b2).1 = false) ∧
    (∀ b2 : CopyButton, inSuccessState (showCopyError b2).1 = false) :=
  C8_roundtrip demoButton (by decide) (by decide)

/-- C5 counterexample: a section spanning 40%–60% of the viewport height
lies entirely inside the spec's 10%–80% band, so the spec policy marks it
currently read; the source's band (`rootMargin: "-20% 0px -70% 0px"`)
reaches only from 20% to 30% of the viewport, misses the section entirely,
and the code never marks it. -/
theorem C5_counterexample :
    specMarksRead 40 20 100 = true ∧ spyMarksRead 40 20 100 = false := by decide

/-- C5 (amended): the scroll spy marks a section exactly when strictly
more than 50% of it lies within the band from 20% to 30% of the viewport
height (top inset 20%, bottom inset 70%); on a marking with a matching nav
item it activates only that nav item and mirrors the hash, and never
touches any section's visibility. -/
theorem C5_scroll_spy (secTop secHeight vh : ℤ) (hh : 0 < secHeight)
    (s : DocState) (sid : String) (i : Nat)
    (hnav : findNavIdxAux sid 0 s.navItems = some i)
    (hi : i < s.navItems.length) :
    (spyMarksRead secTop secHeight vh = true
      ↔ 100 * secHeight < 2 * intersectionLen100 secTop secHeight vh) ∧
    (scrollSpyUpdate sid s).sections = s.sections ∧
    ((scrollSpyUpdate sid s).navItems.map NavItem.active
      = List.replicate i false ++ true ::
          List.replicate (s.navItems.length - i - 1) false) ∧
    ((scrollSpyUpdate sid s).locationHash
      = if s.replaceStateSupported then "#" ++ sid else s.locationHash) := by
  refine ⟨?_, ?_, ?_, ?_⟩
  · constructor
    · intro h
      simp [spyMarksRead] at h
      exact h.2
    · intro h
      simp [spyMarksRead]
      exact ⟨by linarith, h⟩
  · simp [scrollSpyUpdate, hnav]
  · simp [scrollSpyUpdate, hnav, activateNavAt_map_active s.navItems i hi]
  · simp [scrollSpyUpdate, hnav]

/-- C5 witness: a short section sitting in the 20%–30% band of a
100-pixel-high viewport, promoted on the demo page for section `api`. -/
theorem C5_scroll_spy_witness :
    (spyMarksRead 22 4 100 = true
      ↔ 100 * 4 < 2 * intersectionLen100 22 4 100) ∧
    (scrollSpyUpdate "api" demoState).sections = demoState.sections ∧
    ((scrollSpyUpdate "api" demoState).navItems.map NavItem.active
      = List.replicate 1 false ++ true ::
          List.replicate (demoState.navItems.length - 1 - 1) false) ∧
    ((scrollSpyUpdate "api" demoState).locationHash
      = if demoState.replaceStateSupported then "#" ++ "api"
        else demoState.locationHash) :=
  C5_scroll_spy 22 4 100 (by decide) demoState "api" 1 (by decide) (by decide)

/-- C7: at startup, an empty hash or a hash matching no nav item leaves
the page exactly as authored; a nonempty hash whose text occurs in some
nav item's `onclick` and names an existing section triggers the selection,
adds no history entry, leaves exactly that section visible and exactly
that nav item active. -/
theorem C7_initial_load (s : DocState) (i : Nat) (hi : i < s.navItems.length) :
    ((s.locationHash.drop 1 = "" → handleInitialLoad s = s) ∧
     (findNavIdxAux (s.locationHash.drop 1) 0 s.navItems = none →
        handleInitialLoad s = s)) ∧
    (s.locationHash.drop 1 ≠ "" →
     findNavIdxAux (s.locationHash.drop 1) 0 s.navItems = some i →
     s.sections.any (fun sec => sec.id == s.locationHash.drop 1) = true →
       handleInitialLoad s = showSection (s.locationHash.drop 1) (some i) s ∧
       (handleInitialLoad s).historyLength = s.historyLength ∧
       ((handleInitialLoad s).sections.filter (fun sec => sec.active)).map
           ContentSection.id = [s.locationHash.drop 1] ∧
       (handleInitialLoad s).navItems.map NavItem.active
         = List.replicate i false ++ true ::
             List.replicate (s.navItems.length - i - 1) false) := by
  refine ⟨⟨?_, ?_⟩, ?_⟩
  · intro h
    unfold handleInitialLoad
    rw [if_pos h]
  · intro hn
    unfold handleInitialLoad
    by_cases he : s.locationHash.drop 1 = ""
    · rw [if_pos he]
    · rw [if_neg he, hn]
  · intro hne hnav hsec
    have hrun : handleInitialLoad s = showSection (s.locationHash.drop 1) (some i) s := by
      unfold handleInitialLoad
      rw [if_neg hne, hnav]
    refine ⟨hrun, ?_, ?_, ?_⟩
    · rw [hrun]; unfold showSection; rfl
    · rw [hrun]
      unfold showSection
      simp [hsec, activateById_filter (s.locationHash.drop 1) s.sections hsec]
    · rw [hrun]
      unfold showSection
      simp [activateNavAt_map_active s.navItems i hi]

/-- The demo page loaded with `#api` in the address bar. -/
def demoHashApi : DocState := { demoState with locationHash := "#api" }

/-- C7 witness: loading the demo page with hash `#api` selects `api`,
leaves it the only visible section with its nav item the only active one,
and adds no history entry. -/
theorem C7_initial_load_witness :
    ((demoHashApi.locationHash.drop 1 = "" → handleInitialLoad demoHashApi = demoHashApi) ∧
     (findNavIdxAux (demoHashApi.locationHash.drop 1) 0 demoHashApi.navItems = none →
        handleInitialLoad demoHashApi = demoHashApi)) ∧
    (demoHashApi.locationHash.drop 1 ≠ "" →
     findNavIdxAux (demoHashApi.locationHash.drop 1) 0 demoHashApi.navItems = some 1 →
     demoHashApi.sections.any (fun sec => sec.id == demoHashApi.locationHash.drop 1) = true →
       handleInitialLoad demoHashApi
           = showSection (demoHashApi.locationHash.drop 1) (some 1) demoHashApi ∧
       (handleInitialLoad demoHashApi).historyLength = demoHashApi.historyLength ∧
       ((handleInitialLoad demoHashApi).sections.filter (fun sec => sec.active)).map
           ContentSection.id = [demoHashApi.locationHash.drop 1] ∧
       (handleInitialLoad demoHashApi).navItems.map NavItem.active
         = List.replicate 1 false ++ true ::
             List.replicate (demoHashApi.navItems.length - 1 - 1) false) :=
  C7_initial_load demoHashApi 1 (by decide)

end ProxyUI
